import Mathlib

/-!
Shallow embedding of the dozer telemetry pipeline
(`dozer-tracing/src/telemetry.rs`) and of the connection persistence
operations (`dozer-admin/src/db/connection.rs`).

External collaborators (the `tracing`, `tracing_subscriber`,
`tracing_appender` and `opentelemetry` crates, the generated gRPC data
types and the diesel database layer) are modelled at their interface
boundary: environment lookup and filter parsing are explicit parameters,
process-global registrations are explicit state passing, and fallible
calls return `Except`.
-/

namespace Dozer

/-- Modelled from the spec: `JaegerTelemetryConfig` (the agent-exporter
configuration) lives in `dozer_types::models::telemetry`, outside the
excerpt; per spec section 3 its agent connection fields are opaque to this
core. -/
structure JaegerTelemetryConfig where
  agentFields : Unit
deriving DecidableEq

/-- Modelled from the spec: `DozerTelemetryConfig` (the internal-exporter
configuration) lives in `dozer_types::models::telemetry`, outside the
excerpt; per spec section 3 it carries an integer sample percentage and
transport-specific fields opaque to this core. -/
structure DozerTelemetryConfig where
  sample_percent : Nat
  transportFields : Unit
deriving DecidableEq

/-- Modelled from the spec: the tagged trace configuration
`TelemetryTraceConfig` from `dozer_types` (spec section 6:
`TraceConfig = None | InternalExporter(...) | AgentExporter(...)`; the
`None` arm is the `Option` wrapping below). -/
inductive TelemetryTraceConfig where
  | Dozer (config : DozerTelemetryConfig)
  | Jaeger (config : JaegerTelemetryConfig)
deriving DecidableEq

/-- Modelled from the spec: `TelemetryConfig { trace: Option<TraceConfig> }`
(spec section 6). -/
structure TelemetryConfig where
  trace : Option TelemetryTraceConfig
deriving DecidableEq

/-- The opentelemetry `Sampler` variants used by `get_dozer_tracer`
(`telemetry.rs` line 131). The sample ratio is modelled as a rational
number; the source stores it in a 64-bit float. -/
inductive Sampler where
  | ParentBased (root : Sampler)
  | TraceIdRatioBased (ratio : ℚ)
deriving DecidableEq

/-- Sampling decision at the collaborator interface of the opentelemetry
SDK: a `ParentBased` sampler inherits the parent's decision when a parent
exists and delegates to its root sampler at trace roots; a
`TraceIdRatioBased r` sampler at a root records the trace exactly when the
fraction of the id space below the trace id is smaller than `r`.
`parentSampled` is `none` at a trace root and `some d` for a span whose
parent was decided `d`; `traceIdFraction` is the trace id scaled into
`[0, 1)`. -/
def shouldSample (s : Sampler) (parentSampled : Option Bool)
    (traceIdFraction : ℚ) : Bool :=
  match s with
  | Sampler.ParentBased root =>
    match parentSampled with
    | some d => d
    | none => shouldSample root none traceIdFraction
  | Sampler.TraceIdRatioBased r => decide (traceIdFraction < r)

/-- The opentelemetry `BatchConfig` at its interface boundary: only the
`max_concurrent_exports` knob is touched by `telemetry.rs`. -/
structure BatchConfig where
  max_concurrent_exports : Nat
deriving DecidableEq

/-- `BatchConfig::default()`: the opentelemetry SDK default allows one
concurrent export. -/
def BatchConfig.default : BatchConfig :=
  { max_concurrent_exports := 1 }

/-- `BatchConfig::with_max_concurrent_exports`: replaces the bound. -/
def BatchConfig.with_max_concurrent_exports (c : BatchConfig) (n : Nat) :
    BatchConfig :=
  { c with max_concurrent_exports := n }

/-- Modelled from the spec: `DozerExporter` lives in
`dozer-tracing/src/exporter.rs`, outside the excerpt; per spec section 4.3
it is an exporter bound to the configuration's transport fields. -/
structure DozerExporter where
  config : DozerTelemetryConfig
deriving DecidableEq

/-- `DozerExporter::new` (`telemetry.rs` line 127). -/
def DozerExporter.new (config : DozerTelemetryConfig) : DozerExporter :=
  { config := config }

/-- The built `BatchSpanProcessor` at its interface boundary: it holds the
exporter and the batch configuration it was built with
(`BatchSpanProcessor::builder(...).with_batch_config(...).build()`). -/
structure BatchSpanProcessor where
  exporter : DozerExporter
  config : BatchConfig
deriving DecidableEq

/-- The built `sdk::trace::TracerProvider` at its interface boundary: the
sampler from its `Config` and its span processor
(`telemetry.rs` lines 137 to 143). -/
structure TracerProvider where
  sampler : Sampler
  processor : BatchSpanProcessor
deriving DecidableEq

/-- A tracer handle as returned by the two tracer constructors: either the
internal-exporter provider's versioned tracer, or the jaeger agent tracer
carrying its service name. -/
inductive Tracer where
  | dozer (name : String) (provider : TracerProvider)
  | jaeger (serviceName : String)
deriving DecidableEq

/-- An `OpenTelemetryLayer` wrapping a tracer
(`tracing_opentelemetry::layer().with_tracer(tracer)`). -/
structure OpenTelemetryLayer where
  tracer : Tracer
deriving DecidableEq

/-- The process-global tracer-provider registration, as installed by
`global::set_tracer_provider`. -/
inductive InstalledProvider where
  | dozer (provider : TracerProvider)
  | jaeger (serviceName : String)
deriving DecidableEq

/-- Process-global mutable state touched by `telemetry.rs`: the
opentelemetry error handler, the registered tracer provider and the text
map propagator. -/
structure GlobalState where
  errorHandlerSet : Bool
  tracerProvider : Option InstalledProvider
  propagatorSet : Bool
deriving DecidableEq

/-- The tracer provider value that `get_dozer_tracer` builds and registers
globally, named so that theorems can refer to it. -/
def dozerProviderOf (config : DozerTelemetryConfig) : TracerProvider :=
  { sampler :=
      Sampler.ParentBased
        (Sampler.TraceIdRatioBased ((config.sample_percent : ℚ) / 100)),
    processor :=
      { exporter := DozerExporter.new config,
        config :=
          (BatchConfig.default.with_max_concurrent_exports
            100000).with_max_concurrent_exports 5 } }

/-- `get_dozer_tracer` (`telemetry.rs` lines 118 to 152): builds the
sampler as `ParentBased(TraceIdRatioBased(sample_percent / 100))`, the
batch configuration by setting `max_concurrent_exports` to `100000` and
then to `5`, wraps the exporter in a batch span processor, builds the
tracer provider, registers that provider globally
(`global::set_tracer_provider`, line 150) and returns the layer. No
validation of `sample_percent` is performed. -/
def get_dozer_tracer (config : DozerTelemetryConfig) (g : GlobalState) :
    OpenTelemetryLayer × GlobalState :=
  let sample_percent : ℚ := (config.sample_percent : ℚ) / 100
  let exporter := DozerExporter.new config
  let batch_config :=
    (BatchConfig.default.with_max_concurrent_exports
      100000).with_max_concurrent_exports 5
  let sampler :=
    Sampler.ParentBased (Sampler.TraceIdRatioBased sample_percent)
  let batch_processor : BatchSpanProcessor :=
    { exporter := exporter, config := batch_config }
  let tracer_provider : TracerProvider :=
    { sampler := sampler, processor := batch_processor }
  let tracer := Tracer.dozer "opentelemetry-dozer" tracer_provider
  ({ tracer := tracer },
   { g with tracerProvider := some (InstalledProvider.dozer tracer_provider) })

/-- `get_jaeger_tracer` (`telemetry.rs` lines 101 to 116): registers the
trace-context propagator globally, then builds the agent pipeline with the
given service name. The jaeger crate's `install_simple` also registers the
provider it builds as the process's tracer provider before returning the
tracer. -/
def get_jaeger_tracer (app_name : String) (_config : JaegerTelemetryConfig)
    (g : GlobalState) : OpenTelemetryLayer × GlobalState :=
  let g := { g with propagatorSet := true }
  let tracer := Tracer.jaeger app_name
  ({ tracer := tracer },
   { g with tracerProvider := some (InstalledProvider.jaeger app_name) })

/-- The environment variables read by `create_subscriber`: `RUST_LOG` (the
`tracing_subscriber` default environment variable) and
`DOZER_TRACE_FILTER`. -/
structure Env where
  rustLog : Option String
  dozerTraceFilter : Option String
deriving DecidableEq

/-- The resolution pattern
`try_from_env(...).or_else(|_| EnvFilter::try_new(dflt)).unwrap()` at the
`EnvFilter` interface boundary: `parse` is the crate's directive parser
(`try_new`), returning `none` on a malformed string; `try_from_env` fails
both when the variable is absent and when its value is malformed, and the
final `unwrap` panic is the `Except.error` arm, reachable only if the
hard-coded default itself fails to parse. -/
def resolveFilterOr (parse : String → Option String) (v : Option String)
    (dflt : String) : Except Unit String :=
  match v.bind parse with
  | some f => Except.ok f
  | none =>
    match parse dflt with
    | some f => Except.ok f
    | none => Except.error ()

/-- The console filter (`telemetry.rs` lines 59 to 61):
`EnvFilter::try_from_default_env().or_else(|_| EnvFilter::try_new("info")).unwrap()`. -/
def fmt_filter_of (parse : String → Option String) (env : Env) :
    Except Unit String :=
  resolveFilterOr parse env.rustLog "info"

/-- The file-log filter (`telemetry.rs` lines 63 to 65): same resolution as
the console filter. -/
def log_writer_filter_of (parse : String → Option String) (env : Env) :
    Except Unit String :=
  resolveFilterOr parse env.rustLog "info"

/-- The trace filter (`telemetry.rs` lines 68 to 70):
`EnvFilter::try_from_env("DOZER_TRACE_FILTER").or_else(|_| EnvFilter::try_new("dozer=trace")).unwrap()`. -/
def trace_filter_of (parse : String → Option String) (env : Env) :
    Except Unit String :=
  resolveFilterOr parse env.dozerTraceFilter "dozer=trace"

/-- The rolling file appender
(`tracing_appender::rolling::never(directory, file_name)`). -/
structure FileAppender where
  directory : String
  fileName : String
deriving DecidableEq

/-- The `WorkerGuard` returned by `tracing_appender::non_blocking`:
ownership of the background file-writer worker; dropping it flushes the
buffered log lines. -/
structure WorkerGuard where
  appender : FileAppender
deriving DecidableEq

/-- A `fmt` layer with the knobs `create_subscriber` touches: target
display, ANSI colors, the writer (`none` is standard output) and the
attached filter. -/
structure FmtLayer where
  with_target : Bool
  ansi : Bool
  writer : Option FileAppender
  filter : String
deriving DecidableEq

/-- The composed subscriber built by `create_subscriber`
(`registry().with(fmt_layer).with(file layer).with(layers.0).with(layers.1)`):
the console layer, the file layer, and the two optional trace-layer slots
of the `layers` pair (internal-exporter slot first, jaeger slot second),
each trace layer paired with its filter. -/
structure Subscriber where
  fmt_layer : FmtLayer
  file_layer : FmtLayer
  dozer_layer : Option (OpenTelemetryLayer × String)
  jaeger_layer : Option (OpenTelemetryLayer × String)
deriving DecidableEq

/-- `create_subscriber` (`telemetry.rs` lines 52 to 99). The environment
and the `EnvFilter` parser are explicit parameters; the global state is
threaded through the tracer constructors; the `Except.error` arm is a
panic of one of the three `unwrap` calls on filter resolution. -/
def create_subscriber (parse : String → Option String) (env : Env)
    (app_name : Option String) (telemetry_config : Option TelemetryConfig)
    (g : GlobalState) :
    Except Unit ((Subscriber × WorkerGuard) × GlobalState) :=
  let app_name := app_name.getD "dozer"
  match fmt_filter_of parse env with
  | Except.error e => Except.error e
  | Except.ok fmt_filter =>
  match log_writer_filter_of parse env with
  | Except.error e => Except.error e
  | Except.ok log_writer_filter =>
  let layersR :
      Except Unit
        ((Option (OpenTelemetryLayer × String) ×
          Option (OpenTelemetryLayer × String)) × GlobalState) :=
    match telemetry_config with
    | none => Except.ok ((none, none), g)
    | some c =>
      match trace_filter_of parse env with
      | Except.error e => Except.error e
      | Except.ok trace_filter =>
        match c.trace with
        | none => Except.ok ((none, none), g)
        | some (TelemetryTraceConfig.Dozer config) =>
          let lg := get_dozer_tracer config g
          Except.ok ((some (lg.1, trace_filter), none), lg.2)
        | some (TelemetryTraceConfig.Jaeger config) =>
          let lg := get_jaeger_tracer app_name config g
          Except.ok ((none, some (lg.1, trace_filter)), lg.2)
  match layersR with
  | Except.error e => Except.error e
  | Except.ok (layers, g) =>
    let file_appender : FileAppender :=
      { directory := "./log", fileName := app_name ++ ".log" }
    let guard : WorkerGuard := { appender := file_appender }
    let subscriber : Subscriber :=
      { fmt_layer :=
          { with_target := false, ansi := true, writer := none,
            filter := fmt_filter },
        file_layer :=
          { with_target := true, ansi := false,
            writer := some file_appender, filter := log_writer_filter },
        dozer_layer := layers.1,
        jaeger_layer := layers.2 }
    Except.ok ((subscriber, guard), g)

/-- `tracing::subscriber::with_default` at the collaborator interface: it
installs `subscriber` as the thread-default event destination for exactly
the dynamic extent of `closure` and restores the prior destination `d`
afterwards. The closure is modelled as a function of the destination
active while it runs; the pair returned is the closure's result and the
destination active after the call. -/
def with_default {T : Type _} (subscriber : Subscriber)
    (closure : Option Subscriber → T) (d : Option Subscriber) :
    T × Option Subscriber :=
  (closure (some subscriber), d)

/-- Outcome of a scoped installation: the unit of work's result, the final
process-global state, the event destination active after the call, and
whether the pipeline's `WorkerGuard` was released. The guard itself is not
part of the outcome: `init_telemetry_closure` never returns it. -/
structure ScopedOutcome (T : Type _) where
  result : T
  global : GlobalState
  dispatcher : Option Subscriber
  guardReleased : Bool

/-- `init_telemetry_closure` (`telemetry.rs` lines 42 to 50): builds the
subscriber, runs the closure under it via `with_default`, and drops the
`_guard` binding when the function returns, releasing the worker guard
(hence `guardReleased := true` in the outcome). `d` is the event
destination active before the call. -/
def init_telemetry_closure {T : Type _} (parse : String → Option String)
    (env : Env) (app_name : Option String)
    (telemetry_config : Option TelemetryConfig)
    (closure : Option Subscriber → T) (g : GlobalState)
    (d : Option Subscriber) : Except Unit (ScopedOutcome T) :=
  match create_subscriber parse env app_name telemetry_config g with
  | Except.error e => Except.error e
  | Except.ok ((subscriber, _guard), g) =>
    let rd := with_default subscriber closure d
    Except.ok
      { result := rd.1, global := g, dispatcher := rd.2,
        guardReleased := true }

/-- Outcome of a global installation: the returned `WorkerGuard`, the final
process-global state and the installed event destination. -/
structure GlobalOutcome where
  guard : WorkerGuard
  global : GlobalState
  dispatcher : Option Subscriber

/-- `init_telemetry` (`telemetry.rs` lines 18 to 34): registers the global
error handler, builds the subscriber and installs it as the process-wide
default (`subscriber.init()`), returning the worker guard. -/
def init_telemetry (parse : String → Option String) (env : Env)
    (app_name : Option String) (telemetry_config : Option TelemetryConfig)
    (g : GlobalState) : Except Unit GlobalOutcome :=
  let g := { g with errorHandlerSet := true }
  match create_subscriber parse env app_name telemetry_config g with
  | Except.error e => Except.error e
  | Except.ok ((subscriber, guard), g) =>
    Except.ok
      { guard := guard, global := g, dispatcher := some subscriber }

/-- `shutdown_telemetry` (`telemetry.rs` lines 37 to 39):
`global::shutdown_tracer_provider()` replaces the registered provider with
a no-op provider. -/
def shutdown_telemetry (g : GlobalState) : GlobalState :=
  { g with tracerProvider := none }

/-- Modelled from the spec: the generated gRPC `Authentication` value is a
wire/schema object out of scope (spec section 1); it is opaque to
`connection.rs` beyond being serialized, so it is modelled as an opaque
payload. -/
structure Authentication where
  payload : String
deriving DecidableEq

/-- Modelled from the spec: the generated gRPC `ConnectionInfo` object
(`dozer_admin_grpc`), with the fields `connection.rs` reads: an optional
id, a name, the numeric connection-type tag `r#type` and an optional
authentication value. -/
structure ConnectionInfo where
  id : Option String
  name : String
  rtype : Int
  authentication : Option Authentication
deriving DecidableEq

/-- The generated `ConnectionType` enum used by `connection.rs`. -/
inductive ConnectionType where
  | Postgres
  | Snowflake
  | Databricks
deriving DecidableEq

/-- `TryFrom<i32> for ConnectionType` (`connection.rs` lines 45 to 55). -/
def ConnectionType.tryFromInt (item : Int) : Except String ConnectionType :=
  match item with
  | 0 => Except.ok ConnectionType.Postgres
  | 1 => Except.ok ConnectionType.Snowflake
  | 2 => Except.ok ConnectionType.Databricks
  | _ => Except.error "ConnectionType enum not match"

/-- The proto-generated `as_str_name` of `ConnectionType`, outside the
excerpt; the concrete strings are opaque to the claims about `save` and
`upsert`, modelled with the variant identifiers. -/
def ConnectionType.as_str_name : ConnectionType → String
  | ConnectionType.Postgres => "POSTGRES"
  | ConnectionType.Snowflake => "SNOWFLAKE"
  | ConnectionType.Databricks => "DATABRICKS"

/-- `serde_json::to_string(&item.authentication)` at its interface
boundary: serializing this plain data value cannot fail, but the call site
uses `?`, so the fallible signature is kept. -/
def serde_json_to_string (a : Option Authentication) : Except String String :=
  Except.ok (match a with
    | none => "null"
    | some x => x.payload)

/-- The diesel-insertable `NewConnection` row (`connection.rs` lines 22
to 29). -/
structure NewConnection where
  auth : String
  name : String
  db_type : String
  id : String
deriving DecidableEq

/-- `TryFrom<ConnectionInfo> for NewConnection` (`connection.rs` lines 67
to 82). The fresh UUID produced by `uuid::Uuid::new_v4().to_string()` is
an explicit parameter `generated_id`; it is used only when the info has no
id. -/
def NewConnection.tryFrom (item : ConnectionInfo) (generated_id : String) :
    Except String NewConnection :=
  match serde_json_to_string item.authentication with
  | Except.error e => Except.error e
  | Except.ok auth_string =>
  match ConnectionType.tryFromInt item.rtype with
  | Except.error e => Except.error e
  | Except.ok connection_type =>
    let connection_type_string := connection_type.as_str_name
    let connetion_id := item.id.getD generated_id
    Except.ok
      { auth := auth_string, name := item.name,
        db_type := connection_type_string, id := connetion_id }

/-- The connections table: rows keyed by `id`. -/
structure DbState where
  rows : List NewConnection
deriving DecidableEq

/-- A pool handle at the diesel/r2d2 interface boundary: `conn` is the
result of `pool.get()`, and `execError` is `some e` when the database
rejects the next write statement (so `execute` on this handle returns
`Err(e)`). -/
structure DbPool where
  conn : Except String DbState
  execError : Option String

/-- `pool.get()` (`connection.rs` line 86): acquire a pooled connection. -/
def DbPool.get (pool : DbPool) : Except String DbState :=
  pool.conn

/-- Row-level effect of
`insert_into(connections).values(&nc).on_conflict(id).do_update().set(&nc)`:
replace the row with the same id if one exists, otherwise append the new
row. -/
def upsert_row : List NewConnection → NewConnection → List NewConnection
  | [], nc => [nc]
  | r :: rs, nc =>
    if r.id = nc.id then nc :: rs else r :: upsert_row rs nc

/-- `execute(&mut db)` on the insert-or-update statement: on a database
error the statement writes nothing and returns the error; otherwise it
performs the keyed insert-or-update and reports one affected row. -/
def db_execute (pool : DbPool) (db : DbState) (nc : NewConnection) :
    Except String Nat × DbState :=
  match pool.execError with
  | some e => (Except.error e, db)
  | none => (Except.ok 1, { rows := upsert_row db.rows nc })

/-- `ConnectionInfo::save` (`connection.rs` lines 84 to 95): converts to a
`NewConnection`, acquires a pooled connection, runs the insert-or-update
statement binding its result to the discarded `_inserted`, sets `self.id`
to the new connection's id and returns `Ok`. The mutated row store is
returned alongside the updated info so the write is observable. -/
def ConnectionInfo.save (self : ConnectionInfo) (generated_id : String)
    (pool : DbPool) : Except String (ConnectionInfo × DbState) :=
  match NewConnection.tryFrom self generated_id with
  | Except.error e => Except.error e
  | Except.ok new_connection =>
  match pool.get with
  | Except.error e => Except.error e
  | Except.ok db =>
    let res := db_execute pool db new_connection
    let _inserted := res.1
    Except.ok ({ self with id := some new_connection.id }, res.2)

/-- `ConnectionInfo::upsert` (`connection.rs` lines 135 to 146): the body
is the same statement sequence as `save`. -/
def ConnectionInfo.upsert (self : ConnectionInfo) (generated_id : String)
    (pool : DbPool) : Except String (ConnectionInfo × DbState) :=
  match NewConnection.tryFrom self generated_id with
  | Except.error e => Except.error e
  | Except.ok new_connection =>
  match pool.get with
  | Except.error e => Except.error e
  | Except.ok db =>
    let res := db_execute pool db new_connection
    let _inserted := res.1
    Except.ok ({ self with id := some new_connection.id }, res.2)

/-- Whether a fallible computation succeeded. -/
def isOkay {ε α : Type _} : Except ε α → Bool
  | Except.ok _ => true
  | Except.error _ => false

/-- The subscriber and guard that `create_subscriber` assembles once the
filters `ff`, `lf`, the resolved application name and the two trace-layer
slots are fixed; named so the characterization lemma can state the shape
of the composed pipeline. -/
def composed_subscriber (ff lf app_name : String)
    (dz jg : Option (OpenTelemetryLayer × String)) :
    Subscriber × WorkerGuard :=
  let file_appender : FileAppender :=
    { directory := "./log", fileName := app_name ++ ".log" }
  ({ fmt_layer :=
       { with_target := false, ansi := true, writer := none, filter := ff },
     file_layer :=
       { with_target := true, ansi := false, writer := some file_appender,
         filter := lf },
     dozer_layer := dz,
     jaeger_layer := jg },
   { appender := file_appender })

/-- A parser that accepts every directive string, standing in for the
`EnvFilter` parser in concrete instantiations. -/
def parse0 : String → Option String := fun s => some s

/-- An environment with neither override set. -/
def env0 : Env :=
  { rustLog := none, dozerTraceFilter := none }

/-- A fresh process-global state: nothing registered. -/
def g0 : GlobalState :=
  { errorHandlerSet := false, tracerProvider := none, propagatorSet := false }

/-- An internal-exporter configuration with an in-range sample percent. -/
def dz50 : DozerTelemetryConfig :=
  { sample_percent := 50, transportFields := () }

/-- An internal-exporter configuration with sample percent 200, outside
the documented range. -/
def dz200 : DozerTelemetryConfig :=
  { sample_percent := 200, transportFields := () }

/-- A telemetry configuration selecting the internal exporter at 50
percent. -/
def cfg50 : Option TelemetryConfig :=
  some { trace := some (TelemetryTraceConfig.Dozer dz50) }

/-- A telemetry configuration selecting the internal exporter at 200
percent. -/
def cfg200 : Option TelemetryConfig :=
  some { trace := some (TelemetryTraceConfig.Dozer dz200) }

/-- An agent-exporter telemetry configuration. -/
def cfgJg : Option TelemetryConfig :=
  some { trace := some (TelemetryTraceConfig.Jaeger { agentFields := () }) }

/-- The file appender built for the default application name. -/
def appender0 : FileAppender :=
  { directory := "./log", fileName := "dozer.log" }

/-- The worker guard built for the default application name. -/
def guard0 : WorkerGuard :=
  { appender := appender0 }

/-- The subscriber composed with no telemetry configuration, both filters
resolved to the default, and the default application name. -/
def subNone : Subscriber :=
  (composed_subscriber "info" "info" "dozer" none none).1

/-- The internal-exporter trace layer built from `dz50`. -/
def lay50 : OpenTelemetryLayer :=
  { tracer := Tracer.dozer "opentelemetry-dozer" (dozerProviderOf dz50) }

/-- The subscriber composed from `cfg50` under `parse0` and `env0`. -/
def sub50 : Subscriber :=
  (composed_subscriber "info" "info" "dozer"
    (some (lay50, "dozer=trace")) none).1

/-- The global state after building the `cfg50` pipeline from `g0`. -/
def g50 : GlobalState :=
  { errorHandlerSet := false,
    tracerProvider := some (InstalledProvider.dozer (dozerProviderOf dz50)),
    propagatorSet := false }

/-- The subscriber composed from `cfgJg` under `parse0` and `env0`. -/
def subJg : Subscriber :=
  (composed_subscriber "info" "info" "dozer" none
    (some ({ tracer := Tracer.jaeger "dozer" }, "dozer=trace"))).1

/-- The global state after building the `cfgJg` pipeline from `g0`. -/
def gJg : GlobalState :=
  { errorHandlerSet := false,
    tracerProvider := some (InstalledProvider.jaeger "dozer"),
    propagatorSet := true }

/-- The outcome of the scoped installation of `cfg50` over `g0` with the
constant unit of work. -/
def o50 : ScopedOutcome Nat :=
  { result := 0, global := g50, dispatcher := none, guardReleased := true }

/-- A connection info value without an id, of postgres type. -/
def ci0 : ConnectionInfo :=
  { id := none, name := "events", rtype := 0, authentication := none }

/-- The row `ci0` converts to under the fresh id `id-1`. -/
def nc0 : NewConnection :=
  { auth := "null", name := "events", db_type := "POSTGRES", id := "id-1" }

/-- An empty connections table. -/
def db0 : DbState :=
  { rows := [] }

/-- A pool whose connection acquisition succeeds over the empty table but
whose next write statement is rejected by the database. -/
def pool0 : DbPool :=
  { conn := Except.ok db0, execError := some "disk full" }

/-- Closed-form evaluation of `create_subscriber`: once the three filter
resolutions and the configuration shape are fixed, the result is the
composed pipeline with the corresponding trace-layer slots and global
effect. -/
theorem create_subscriber_eq (parse : String → Option String) (env : Env)
    (app_name : Option String) (cfg : Option TelemetryConfig)
    (g : GlobalState) :
    create_subscriber parse env app_name cfg g =
      match fmt_filter_of parse env with
      | Except.error e => Except.error e
      | Except.ok ff =>
        match log_writer_filter_of parse env with
        | Except.error e => Except.error e
        | Except.ok lf =>
          match cfg with
          | none =>
            Except.ok
              (composed_subscriber ff lf (app_name.getD "dozer") none none, g)
          | some c =>
            match trace_filter_of parse env with
            | Except.error e => Except.error e
            | Except.ok tf =>
              match c.trace with
              | none =>
                Except.ok
                  (composed_subscriber ff lf (app_name.getD "dozer") none
                    none, g)
              | some (TelemetryTraceConfig.Dozer config) =>
                Except.ok
                  (composed_subscriber ff lf (app_name.getD "dozer")
                    (some
                      ({ tracer :=
                          Tracer.dozer "opentelemetry-dozer"
                            (dozerProviderOf config) }, tf)) none,
                   { g with
                      tracerProvider :=
                        some (InstalledProvider.dozer
                          (dozerProviderOf config)) })
              | some (TelemetryTraceConfig.Jaeger _config) =>
                Except.ok
                  (composed_subscriber ff lf (app_name.getD "dozer") none
                    (some
                      ({ tracer := Tracer.jaeger (app_name.getD "dozer") },
                        tf)),
                   { g with
                      propagatorSet := true,
                      tracerProvider :=
                        some (InstalledProvider.jaeger
                          (app_name.getD "dozer")) }) := by
  unfold create_subscriber
  cases hf : fmt_filter_of parse env with
  | error e => rfl
  | ok ff =>
    cases hl : log_writer_filter_of parse env with
    | error e => rfl
    | ok lf =>
      cases cfg with
      | none => rfl
      | some c =>
        obtain ⟨tr⟩ := c
        cases ht : trace_filter_of parse env with
        | error e => rfl
        | ok tf =>
          cases tr with
          | none => rfl
          | some tc =>
            cases tc with
            | Dozer config => rfl
            | Jaeger config => rfl

/-- Inversion of a successful `create_subscriber` call: the filters
resolved, the pipeline is the composed one, and the trace-layer slots and
the global effect are determined by the configuration shape. -/
theorem create_subscriber_inv (parse : String → Option String) (env : Env)
    (app_name : Option String) (cfg : Option TelemetryConfig)
    (g : GlobalState) (sub : Subscriber) (guard : WorkerGuard)
    (g' : GlobalState)
    (h : create_subscriber parse env app_name cfg g =
      Except.ok ((sub, guard), g')) :
    ∃ ff lf dz jg,
      fmt_filter_of parse env = Except.ok ff ∧
      log_writer_filter_of parse env = Except.ok lf ∧
      (sub, guard) = composed_subscriber ff lf (app_name.getD "dozer") dz jg ∧
      ((cfg.bind TelemetryConfig.trace = none ∧ dz = none ∧ jg = none ∧
          g' = g) ∨
       (∃ c tf,
          cfg.bind TelemetryConfig.trace =
            some (TelemetryTraceConfig.Dozer c) ∧
          trace_filter_of parse env = Except.ok tf ∧
          dz = some
            ({ tracer := Tracer.dozer "opentelemetry-dozer"
                (dozerProviderOf c) }, tf) ∧
          jg = none ∧
          g' = { g with
            tracerProvider :=
              some (InstalledProvider.dozer (dozerProviderOf c)) }) ∨
       (∃ jc tf,
          cfg.bind TelemetryConfig.trace =
            some (TelemetryTraceConfig.Jaeger jc) ∧
          trace_filter_of parse env = Except.ok tf ∧
          jg = some
            ({ tracer := Tracer.jaeger (app_name.getD "dozer") }, tf) ∧
          dz = none ∧
          g' = { g with
            propagatorSet := true,
            tracerProvider :=
              some (InstalledProvider.jaeger (app_name.getD "dozer")) })) := by
  rw [create_subscriber_eq] at h
  cases hf : fmt_filter_of parse env with
  | error e => rw [hf] at h; simp at h
  | ok ff =>
    rw [hf] at h
    cases hl : log_writer_filter_of parse env with
    | error e => rw [hl] at h; simp at h
    | ok lf =>
      rw [hl] at h
      cases cfg with
      | none =>
        simp only [Except.ok.injEq, Prod.mk.injEq] at h
        exact ⟨ff, lf, none, none, rfl, rfl, h.1.symm,
          Or.inl ⟨rfl, rfl, rfl, h.2.symm⟩⟩
      | some c =>
        obtain ⟨tr⟩ := c
        cases ht : trace_filter_of parse env with
        | error e => rw [ht] at h; simp at h
        | ok tf =>
          rw [ht] at h
          cases tr with
          | none =>
            simp only [Except.ok.injEq, Prod.mk.injEq] at h
            exact ⟨ff, lf, none, none, rfl, rfl, h.1.symm,
              Or.inl ⟨rfl, rfl, rfl, h.2.symm⟩⟩
          | some tc =>
            cases tc with
            | Dozer config =>
              simp only [Except.ok.injEq, Prod.mk.injEq] at h
              exact ⟨ff, lf, _, none, rfl, rfl, h.1.symm,
                Or.inr (Or.inl ⟨config, tf, rfl, rfl, rfl, rfl, h.2.symm⟩)⟩
            | Jaeger config =>
              simp only [Except.ok.injEq, Prod.mk.injEq] at h
              exact ⟨ff, lf, none, _, rfl, rfl, h.1.symm,
                Or.inr (Or.inr ⟨config, tf, rfl, rfl, rfl, rfl, h.2.symm⟩)⟩

/-- C8: `ConnectionInfo::save` and `ConnectionInfo::upsert` are observably
equivalent operations: for every connection info value, fresh id and pool
state they perform the same keyed insert-or-update, make the same mutation
of the id field, and return the same result. -/
theorem save_eq_upsert (self : ConnectionInfo) (generated_id : String)
    (pool : DbPool) :
    ConnectionInfo.save self generated_id pool =
      ConnectionInfo.upsert self generated_id pool := rfl

/-- C9: the result of the insert-or-update statement is discarded; whenever
conversion to `NewConnection` and pool acquisition succeed, `save` and
`upsert` set the id and return `Ok` even though the database rejected the
write - the rejected write leaves the row store unchanged and the database
error `e` never appears in the returned value. -/
theorem save_discards_db_error (self : ConnectionInfo)
    (generated_id : String) (pool : DbPool) (nc : NewConnection)
    (db : DbState) (e : String)
    (h1 : NewConnection.tryFrom self generated_id = Except.ok nc)
    (h2 : pool.conn = Except.ok db)
    (h3 : pool.execError = some e) :
    ConnectionInfo.save self generated_id pool =
      Except.ok ({ self with id := some nc.id }, db) ∧
    ConnectionInfo.upsert self generated_id pool =
      Except.ok ({ self with id := some nc.id }, db) := by
  unfold ConnectionInfo.save ConnectionInfo.upsert DbPool.get
  rw [h1, h2]
  simp [db_execute, h3]

/-- Witness for `save_discards_db_error`: a postgres connection info saved
through a pool whose write statement fails with "disk full" still returns
`Ok` with the id set and the table unchanged. -/
theorem save_discards_db_error_witness :
    ConnectionInfo.save ci0 "id-1" pool0 =
      Except.ok ({ ci0 with id := some nc0.id }, db0) ∧
    ConnectionInfo.upsert ci0 "id-1" pool0 =
      Except.ok ({ ci0 with id := some nc0.id }, db0) :=
  save_discards_db_error ci0 "id-1" pool0 nc0 db0 "disk full" rfl rfl rfl

/-- C3: the batch span processor's effective bound on concurrent exports is
the final value 5: the configuration carried by the constructed processor
inside the provider `get_dozer_tracer` builds and registers has
`max_concurrent_exports = 5`, and overwriting that knob is absorbing, so
the intermediate value 100000 is never observable in the built
processor. -/
theorem batch_concurrent_exports_final_bound
    (config : DozerTelemetryConfig) (g : GlobalState) :
    (get_dozer_tracer config g).1.tracer =
      Tracer.dozer "opentelemetry-dozer" (dozerProviderOf config) ∧
    (get_dozer_tracer config g).2.tracerProvider =
      some (InstalledProvider.dozer (dozerProviderOf config)) ∧
    (dozerProviderOf config).processor.config.max_concurrent_exports = 5 ∧
    (∀ c : BatchConfig, ∀ a b : Nat,
      (c.with_max_concurrent_exports a).with_max_concurrent_exports b =
        c.with_max_concurrent_exports b) :=
  ⟨rfl, rfl, rfl, fun _ _ _ => rfl⟩

/-- C2 counterexample: with sample percent 200, outside [0,100], the
pipeline builds successfully - no configuration error is reported to the
caller - and the out-of-range value is passed through to the sampler as
the ratio 200/100 = 2, which exceeds the full-sampling ratio 1. -/
theorem sample_percent_out_of_range_cex :
    isOkay (create_subscriber parse0 env0 none cfg200 g0) = true ∧
    (dozerProviderOf dz200).sampler =
      Sampler.ParentBased (Sampler.TraceIdRatioBased ((200 : ℚ) / 100)) ∧
    (200 : ℚ) / 100 = 2 ∧
    ¬((200 : ℚ) / 100 ≤ 1) :=
  ⟨rfl, rfl, by norm_num, by norm_num⟩

/-- C2 amended: pipeline construction performs no range validation on the
sample percentage: for every percentage, including values above 100, the
sampler ratio is the raw value divided by 100 - neither clamped nor
rejected - and whether `create_subscriber` succeeds does not depend on the
percentage at all (its only failure source is filter resolution). -/
theorem sample_percent_passed_through (p q : Nat) (u : Unit)
    (parse : String → Option String) (env : Env) (app_name : Option String)
    (g : GlobalState) :
    (dozerProviderOf { sample_percent := p, transportFields := u }).sampler =
      Sampler.ParentBased (Sampler.TraceIdRatioBased ((p : ℚ) / 100)) ∧
    isOkay (create_subscriber parse env app_name
      (some { trace := some (TelemetryTraceConfig.Dozer
        { sample_percent := p, transportFields := u }) }) g) =
    isOkay (create_subscriber parse env app_name
      (some { trace := some (TelemetryTraceConfig.Dozer
        { sample_percent := q, transportFields := u }) }) g) := by
  refine ⟨rfl, ?_⟩
  rw [create_subscriber_eq, create_subscriber_eq]
  cases fmt_filter_of parse env with
  | error e => rfl
  | ok ff =>
    cases log_writer_filter_of parse env with
    | error e => rfl
    | ok lf =>
      cases trace_filter_of parse env with
      | error e => rfl
      | ok tf => rfl

/-- C6: for every sample percent `p` in [0,100] the internal exporter's
sampler is parent-based around a trace-id-ratio sampler with ratio exactly
`p / 100`: every non-root span inherits its parent's decision, the ratio
decision applies only at trace roots, `p = 0` samples no trace root and
`p = 100` samples every trace root. -/
theorem sampler_parent_based_ratio (p : Nat) (u : Unit) (g : GlobalState)
    (t : ℚ) (d : Bool) (hp : p ≤ 100) (ht0 : 0 ≤ t) (ht1 : t < 1) :
    (get_dozer_tracer { sample_percent := p, transportFields := u }
        g).1.tracer =
      Tracer.dozer "opentelemetry-dozer"
        (dozerProviderOf { sample_percent := p, transportFields := u }) ∧
    (dozerProviderOf
        { sample_percent := p, transportFields := u }).sampler =
      Sampler.ParentBased (Sampler.TraceIdRatioBased ((p : ℚ) / 100)) ∧
    shouldSample
        (dozerProviderOf
          { sample_percent := p, transportFields := u }).sampler
        (some d) t = d ∧
    shouldSample
        (dozerProviderOf
          { sample_percent := p, transportFields := u }).sampler
        none t = decide (t < (p : ℚ) / 100) ∧
    (p = 0 →
      shouldSample
        (dozerProviderOf
          { sample_percent := p, transportFields := u }).sampler
        none t = false) ∧
    (p = 100 →
      shouldSample
        (dozerProviderOf
          { sample_percent := p, transportFields := u }).sampler
        none t = true) := by
  refine ⟨rfl, rfl, rfl, rfl, ?_, ?_⟩
  · intro hzero
    subst hzero
    simp only [dozerProviderOf, shouldSample, Nat.cast_zero, zero_div,
      decide_eq_false_iff_not, not_lt]
    exact ht0
  · intro hcent
    subst hcent
    simp only [dozerProviderOf, shouldSample, decide_eq_true_eq]
    norm_num
    exact ht1

/-- Witness for `sampler_parent_based_ratio` at `p = 100` over a fresh
global state, a trace-id fraction of one half and parent decision
`true`. -/
theorem sampler_parent_based_ratio_witness :
    (get_dozer_tracer { sample_percent := 100, transportFields := () }
        g0).1.tracer =
      Tracer.dozer "opentelemetry-dozer"
        (dozerProviderOf { sample_percent := 100, transportFields := () }) ∧
    (dozerProviderOf
        { sample_percent := 100, transportFields := () }).sampler =
      Sampler.ParentBased
        (Sampler.TraceIdRatioBased (((100 : Nat) : ℚ) / 100)) ∧
    shouldSample
        (dozerProviderOf
          { sample_percent := 100, transportFields := () }).sampler
        (some true) (1 / 2) = true ∧
    shouldSample
        (dozerProviderOf
          { sample_percent := 100, transportFields := () }).sampler
        none (1 / 2) = decide ((1 / 2 : ℚ) < ((100 : Nat) : ℚ) / 100) ∧
    ((100 : Nat) = 0 →
      shouldSample
        (dozerProviderOf
          { sample_percent := 100, transportFields := () }).sampler
        none (1 / 2) = false) ∧
    ((100 : Nat) = 100 →
      shouldSample
        (dozerProviderOf
          { sample_percent := 100, transportFields := () }).sampler
        none (1 / 2) = true) :=
  sampler_parent_based_ratio 100 () g0 (1 / 2) true (by norm_num)
    (by norm_num) (by norm_num)

/-- Resolution behaviour of the shared
`try_from_env(...).or_else(try_new(default)).unwrap()` pattern: when the
hard-coded default parses, resolution succeeds, a present and parsable
override wins, and otherwise the parsed default is returned. -/
theorem resolveFilterOr_spec (parse : String → Option String)
    (v : Option String) (dflt : String)
    (hd : (parse dflt).isSome = true) :
    isOkay (resolveFilterOr parse v dflt) = true ∧
    (∀ s f, v = some s → parse s = some f →
      resolveFilterOr parse v dflt = Except.ok f) ∧
    (v.bind parse = none → ∀ f0, parse dflt = some f0 →
      resolveFilterOr parse v dflt = Except.ok f0) := by
  refine ⟨?_, ?_, ?_⟩
  · unfold resolveFilterOr
    cases hb : v.bind parse with
    | some f => rfl
    | none =>
      cases hq : parse dflt with
      | some f => rfl
      | none => rw [hq] at hd; simp at hd
  · intro s f hv hq
    unfold resolveFilterOr
    rw [hv]
    simp [Option.bind, hq]
  · intro hb f0 hq
    unfold resolveFilterOr
    rw [hb, hq]

/-- C7: filter resolution never fails outward: provided the parser accepts
the hard-coded defaults (as the real `EnvFilter` parser does), each of the
three per-sink filters resolves successfully for every environment state,
to the parsed environment override when one is present and parsable, and
otherwise - override absent or malformed - to its parsed hard-coded
default: "info" for the console and file filters and "dozer=trace" for
the trace filter. -/
theorem filter_resolution_total (parse : String → Option String) (env : Env)
    (h1 : (parse "info").isSome = true)
    (h2 : (parse "dozer=trace").isSome = true) :
    isOkay (fmt_filter_of parse env) = true ∧
    isOkay (log_writer_filter_of parse env) = true ∧
    isOkay (trace_filter_of parse env) = true ∧
    (∀ s f, env.rustLog = some s → parse s = some f →
      fmt_filter_of parse env = Except.ok f ∧
      log_writer_filter_of parse env = Except.ok f) ∧
    (env.rustLog.bind parse = none → ∀ f0, parse "info" = some f0 →
      fmt_filter_of parse env = Except.ok f0 ∧
      log_writer_filter_of parse env = Except.ok f0) ∧
    (∀ s f, env.dozerTraceFilter = some s → parse s = some f →
      trace_filter_of parse env = Except.ok f) ∧
    (env.dozerTraceFilter.bind parse = none →
      ∀ f0, parse "dozer=trace" = some f0 →
        trace_filter_of parse env = Except.ok f0) := by
  obtain ⟨ha1, ha2, ha3⟩ := resolveFilterOr_spec parse env.rustLog "info" h1
  obtain ⟨hb1, hb2, hb3⟩ :=
    resolveFilterOr_spec parse env.dozerTraceFilter "dozer=trace" h2
  exact ⟨ha1, ha1, hb1,
    fun s f hv hq => ⟨ha2 s f hv hq, ha2 s f hv hq⟩,
    fun hb f0 hq => ⟨ha3 hb f0 hq, ha3 hb f0 hq⟩,
    fun s f hv hq => hb2 s f hv hq,
    fun hb f0 hq => hb3 hb f0 hq⟩

/-- Witness for `filter_resolution_total` with the accept-all parser and
the empty environment. -/
theorem filter_resolution_total_witness :
    isOkay (fmt_filter_of parse0 env0) = true ∧
    isOkay (log_writer_filter_of parse0 env0) = true ∧
    isOkay (trace_filter_of parse0 env0) = true ∧
    (∀ s f, env0.rustLog = some s → parse0 s = some f →
      fmt_filter_of parse0 env0 = Except.ok f ∧
      log_writer_filter_of parse0 env0 = Except.ok f) ∧
    (env0.rustLog.bind parse0 = none → ∀ f0, parse0 "info" = some f0 →
      fmt_filter_of parse0 env0 = Except.ok f0 ∧
      log_writer_filter_of parse0 env0 = Except.ok f0) ∧
    (∀ s f, env0.dozerTraceFilter = some s → parse0 s = some f →
      trace_filter_of parse0 env0 = Except.ok f) ∧
    (env0.dozerTraceFilter.bind parse0 = none →
      ∀ f0, parse0 "dozer=trace" = some f0 →
        trace_filter_of parse0 env0 = Except.ok f0) :=
  filter_resolution_total parse0 env0 rfl rfl

/-- C1 counterexample: scoped installation does modify the process-global
trace-provider registration: starting from a state with no provider
registered, running a unit of work through `init_telemetry_closure` with
an internal-exporter configuration leaves the internal-exporter provider
registered as the process's trace provider. -/
theorem scoped_install_registers_provider_cex :
    g0.tracerProvider = none ∧
    (init_telemetry_closure parse0 env0 none cfg50 (fun _ => (0 : Nat)) g0
        none).map (fun o => o.global.tracerProvider) =
      Except.ok (some (InstalledProvider.dozer (dozerProviderOf dz50))) :=
  ⟨rfl, rfl⟩

/-- C1 amended: scoped installation leaves the default event destination
unchanged - the prior dispatcher is restored when the unit of work
completes - but it does not leave the global trace-provider registration
unchanged: with an internal-exporter trace configuration,
`get_dozer_tracer` registers the internal-exporter provider as the
process's trace provider in scoped mode exactly as in global-install
mode. -/
theorem scoped_install_registers_provider (parse : String → Option String)
    (env : Env) (app_name : Option String) (config : DozerTelemetryConfig)
    {T : Type} (closure : Option Subscriber → T) (g : GlobalState)
    (d : Option Subscriber) (o : ScopedOutcome T)
    (h : init_telemetry_closure parse env app_name
      (some { trace := some (TelemetryTraceConfig.Dozer config) })
      closure g d = Except.ok o) :
    o.dispatcher = d ∧
    o.global.tracerProvider =
      some (InstalledProvider.dozer (dozerProviderOf config)) := by
  unfold init_telemetry_closure at h
  cases hc : create_subscriber parse env app_name
      (some { trace := some (TelemetryTraceConfig.Dozer config) }) g with
  | error e => rw [hc] at h; simp at h
  | ok r =>
    obtain ⟨⟨sub, guard⟩, g'⟩ := r
    rw [hc] at h
    simp only [Except.ok.injEq] at h
    obtain ⟨ff, lf, dz, jg, hff, hlf, hcomp, hcases⟩ :=
      create_subscriber_inv _ _ _ _ _ _ _ _ hc
    subst h
    refine ⟨rfl, ?_⟩
    rcases hcases with ⟨hnone, _⟩ | ⟨c, tf, hcfg, _, _, _, hg'⟩ |
      ⟨jc, tf, hcfg, _⟩
    · simp [Option.bind] at hnone
    · simp only [Option.bind, TelemetryTraceConfig.Dozer.injEq,
        Option.some.injEq] at hcfg
      subst hg'
      rw [hcfg]
    · simp [Option.bind] at hcfg

/-- Witness for `scoped_install_registers_provider` at the concrete scoped
run recorded in `o50`. -/
theorem scoped_install_registers_provider_witness :
    o50.dispatcher = none ∧
    o50.global.tracerProvider =
      some (InstalledProvider.dozer (dozerProviderOf dz50)) :=
  scoped_install_registers_provider parse0 env0 none dz50
    (fun _ => (0 : Nat)) g0 none o50 rfl

/-- C4: scoped install runs the unit of work with the freshly built
pipeline as the active event destination for exactly the dynamic extent of
the closure, returns the closure's result unchanged, restores the
previously active destination `d` when the closure completes, and releases
the pipeline's worker guard at that point instead of returning it (the
returned outcome carries no guard). -/
theorem init_telemetry_closure_scoped (parse : String → Option String)
    (env : Env) (app_name : Option String)
    (telemetry_config : Option TelemetryConfig) {T : Type}
    (closure : Option Subscriber → T) (g : GlobalState)
    (d : Option Subscriber) (sub : Subscriber) (guard : WorkerGuard)
    (g' : GlobalState)
    (h : create_subscriber parse env app_name telemetry_config g =
      Except.ok ((sub, guard), g')) :
    init_telemetry_closure parse env app_name telemetry_config closure g
        d =
      Except.ok
        { result := closure (some sub), global := g', dispatcher := d,
          guardReleased := true } := by
  unfold init_telemetry_closure
  rw [h]
  rfl

/-- Witness for `init_telemetry_closure_scoped`: scoped install with no
telemetry configuration returns the closure's value, restores the empty
prior destination and releases the guard. -/
theorem init_telemetry_closure_scoped_witness :
    init_telemetry_closure parse0 env0 none none (fun _ => (7 : Nat)) g0
        none =
      Except.ok
        { result := 7, global := g0, dispatcher := none,
          guardReleased := true } :=
  init_telemetry_closure_scoped parse0 env0 none none (fun _ => (7 : Nat))
    g0 none subNone guard0 g0 rfl

/-- C5: the composed pipeline carries at most one trace layer: a missing
telemetry configuration or a `trace` field of `None` yields no trace
layer, an internal-exporter tag fills exactly the internal-exporter slot
and leaves the agent slot empty, and an agent-exporter tag fills exactly
the agent slot and leaves the internal-exporter slot empty - the two
backends are never both attached. -/
theorem at_most_one_trace_layer (parse : String → Option String)
    (env : Env) (app_name : Option String) (cfg : Option TelemetryConfig)
    (g : GlobalState) (sub : Subscriber) (guard : WorkerGuard)
    (g' : GlobalState)
    (h : create_subscriber parse env app_name cfg g =
      Except.ok ((sub, guard), g')) :
    (sub.dozer_layer = none ∨ sub.jaeger_layer = none) ∧
    (match cfg.bind TelemetryConfig.trace with
     | none => sub.dozer_layer = none ∧ sub.jaeger_layer = none
     | some (TelemetryTraceConfig.Dozer c) =>
       sub.dozer_layer.map Prod.fst =
         some { tracer :=
           Tracer.dozer "opentelemetry-dozer" (dozerProviderOf c) } ∧
       sub.jaeger_layer = none
     | some (TelemetryTraceConfig.Jaeger _jc) =>
       sub.jaeger_layer.map Prod.fst =
         some { tracer := Tracer.jaeger (app_name.getD "dozer") } ∧
       sub.dozer_layer = none) := by
  obtain ⟨ff, lf, dz, jg, hff, hlf, hcomp, hcases⟩ :=
    create_subscriber_inv _ _ _ _ _ _ _ _ h
  have hd : sub.dozer_layer = dz := by
    have h1 := congrArg (fun x => x.1.dozer_layer) hcomp
    simpa [composed_subscriber] using h1
  have hj : sub.jaeger_layer = jg := by
    have h1 := congrArg (fun x => x.1.jaeger_layer) hcomp
    simpa [composed_subscriber] using h1
  rcases hcases with ⟨hn, hdz, hjg, _⟩ | ⟨c, tf, hcfg, _, hdz, hjg, _⟩ |
    ⟨jc, tf, hcfg, _, hjg, hdz, _⟩
  · rw [hn]
    exact ⟨Or.inl (hd.trans hdz), hd.trans hdz, hj.trans hjg⟩
  · rw [hcfg]
    exact ⟨Or.inr (hj.trans hjg), by rw [hd, hdz]; rfl, hj.trans hjg⟩
  · rw [hcfg]
    exact ⟨Or.inl (hd.trans hdz), by rw [hj, hjg]; rfl, hd.trans hdz⟩

/-- Witness for `at_most_one_trace_layer` at the internal-exporter
configuration `cfg50`. -/
theorem at_most_one_trace_layer_witness :
    (sub50.dozer_layer = none ∨ sub50.jaeger_layer = none) ∧
    (match cfg50.bind TelemetryConfig.trace with
     | none => sub50.dozer_layer = none ∧ sub50.jaeger_layer = none
     | some (TelemetryTraceConfig.Dozer c) =>
       sub50.dozer_layer.map Prod.fst =
         some { tracer :=
           Tracer.dozer "opentelemetry-dozer" (dozerProviderOf c) } ∧
       sub50.jaeger_layer = none
     | some (TelemetryTraceConfig.Jaeger _jc) =>
       sub50.jaeger_layer.map Prod.fst =
         some { tracer := Tracer.jaeger "dozer" } ∧
       sub50.dozer_layer = none) :=
  at_most_one_trace_layer parse0 env0 none cfg50 g0 sub50 guard0 g50 rfl

/-- C10: when the optional application name is absent the default name
"dozer" is substituted before any use: the rotating file sink writes to
"dozer.log" in the fixed "./log" directory - both in the returned guard's
appender and in the file layer's writer - and an agent-exporter trace
layer, when configured, carries the service name "dozer". -/
theorem default_app_name_dozer (parse : String → Option String)
    (env : Env) (cfg : Option TelemetryConfig) (g : GlobalState)
    (sub : Subscriber) (guard : WorkerGuard) (g' : GlobalState)
    (h : create_subscriber parse env none cfg g =
      Except.ok ((sub, guard), g')) :
    guard.appender = { directory := "./log", fileName := "dozer.log" } ∧
    sub.file_layer.writer =
      some { directory := "./log", fileName := "dozer.log" } ∧
    (match sub.jaeger_layer with
     | some (l, _tf) => l.tracer = Tracer.jaeger "dozer"
     | none => True) := by
  obtain ⟨ff, lf, dz, jg, hff, hlf, hcomp, hcases⟩ :=
    create_subscriber_inv _ _ _ _ _ _ _ _ h
  have hj : sub.jaeger_layer = jg := by
    have h1 := congrArg (fun x => x.1.jaeger_layer) hcomp
    simpa [composed_subscriber] using h1
  refine ⟨congrArg (fun x => x.2.appender) hcomp,
    congrArg (fun x => x.1.file_layer.writer) hcomp, ?_⟩
  rcases hcases with ⟨_, _, hjg, _⟩ | ⟨c, tf, _, _, _, hjg, _⟩ |
    ⟨jc, tf, _, _, hjg, _, _⟩
  · rw [hj, hjg]; exact trivial
  · rw [hj, hjg]; exact trivial
  · rw [hj, hjg]; exact rfl

/-- Witness for `default_app_name_dozer` at the agent-exporter
configuration `cfgJg` with no application name. -/
theorem default_app_name_dozer_witness :
    guard0.appender = { directory := "./log", fileName := "dozer.log" } ∧
    subJg.file_layer.writer =
      some { directory := "./log", fileName := "dozer.log" } ∧
    (match subJg.jaeger_layer with
     | some (l, _tf) => l.tracer = Tracer.jaeger "dozer"
     | none => True) :=
  default_app_name_dozer parse0 env0 cfgJg g0 subJg guard0 gJg rfl

end Dozer
